import Mathlib

/-!
Verification of the bootstrap-token lifecycle of
`pkg/cloud/vsphere/provisioner/govmomi/utils.go` (cluster-api-provider-vsphere).

The Go functions `GetKubeadmToken`, `createKubeadmToken`, `HandleMachineError`
and `HandleClusterError` are shallowly embedded as pure Lean functions.
External collaborators (the machine lister, the kube-config secret lookup,
the random token generator, the remote kube API client, the clock) are
modelled as fields of an environment record `Env` holding the outcome each
collaborator would produce during the call.  The remote secret store is an
explicit state (`SecretStore`), and Go pointer semantics for the cluster and
machine objects are modelled by a small heap (a list of objects addressed by
index) so that `DeepCopy` genuinely allocates a fresh cell and mutations are
writes to a cell.  Remote calls are recorded in a `Trace` so that claims about
the number of calls and their payloads can be stated.
-/

namespace Govmomi

/-! ### Constants

`constants.KubeadmToken`, `constants.KubeadmTokenExpiryTime`,
`constants.KubeadmTokenTtl` and `constants.KubeadmTokenLeftTime` come from the
repository package `pkg/cloud/vsphere/constants`, which is not part of the
provided sources; only their use sites are.  Modelled from the spec: the two
annotation keys are fixed strings naming the cached token value and its expiry
timestamp, `KubeadmTokenTtl` is the fixed time-to-live, and
`KubeadmTokenLeftTime` is the minimum remaining lifetime below which a cached
token is regenerated (the spec scenario uses 600 s for it).  None of the
claims depends on the concrete values, only on them being fixed constants. -/

/-- Annotation key for the cached token value. -/
def KubeadmToken : String := "k8s.io/kubeadm-token"

/-- Annotation key for the cached token expiry timestamp. -/
def KubeadmTokenExpiryTime : String := "k8s.io/kubeadm-token-expirytime"

/-- Fixed token time-to-live, in seconds. -/
def KubeadmTokenTtl : Int := 3600

/-- Minimum remaining lifetime under which a cached token is regenerated,
in seconds. -/
def KubeadmTokenLeftTime : Int := 600

/-! Constants of the external library `k8s.io/cluster-bootstrap/token`
(`tokenapi`, `tokenutil`), with their upstream values. -/

/-- Constant `tokenapi.BootstrapTokenIDBytes`: length of the public token identifier. -/
def BootstrapTokenIDBytes : Nat := 6

/-- Constant `tokenapi.BootstrapTokenIDKey`. -/
def BootstrapTokenIDKey : String := "token-id"

/-- Constant `tokenapi.BootstrapTokenSecretKey`. -/
def BootstrapTokenSecretKey : String := "token-secret"

/-- Constant `tokenapi.BootstrapTokenExpirationKey`. -/
def BootstrapTokenExpirationKey : String := "expiration"

/-- Constant `tokenapi.BootstrapTokenUsageAuthentication`. -/
def BootstrapTokenUsageAuthentication : String := "usage-bootstrap-authentication"

/-- Constant `tokenapi.BootstrapTokenUsageSigningKey`. -/
def BootstrapTokenUsageSigningKey : String := "usage-bootstrap-signing"

/-- Constant `tokenapi.BootstrapTokenExtraGroupsKey`. -/
def BootstrapTokenExtraGroupsKey : String := "auth-extra-groups"

/-- Constant `tokenapi.BootstrapTokenDescriptionKey`. -/
def BootstrapTokenDescriptionKey : String := "description"

/-- Constant `tokenapi.SecretTypeBootstrapToken`. -/
def SecretTypeBootstrapToken : String := "bootstrap.kubernetes.io/token"

/-- Constant `metav1.NamespaceSystem`. -/
def NamespaceSystem : String := "kube-system"

/-- Function `tokenutil.BootstrapTokenSecretName`: name of the durable secret for a
token identifier. -/
def BootstrapTokenSecretName (tokenID : String) : String :=
  "bootstrap-token-" ++ tokenID

/-! ### Time

Instants are integers (seconds).  `time.Format(time.RFC3339)` and
`time.Parse(time.RFC3339, s)` are modelled by an injective rendering of the
instant and its partial inverse; what the claims need is only that formatting
succeeds on every instant, that parsing recovers a formatted instant, and that
parsing can fail on other strings (for example the empty string that a Go map
returns for a missing key). -/

/-- Decimal digit value of a character, `none` on a non-digit. -/
def digitVal (c : Char) : Option Nat :=
  if '0' ≤ c ∧ c ≤ '9' then some (c.toNat - '0'.toNat) else none

/-- Parse a non-empty all-digit character list as a natural number. -/
def parseNatChars (l : List Char) : Option Nat :=
  if l = [] then none
  else
    l.foldl
      (fun acc c =>
        match acc, digitVal c with
        | some n, some d => some (n * 10 + d)
        | _, _ => none)
      (some 0)

/-- Parse an optionally negated digit list as an integer. -/
def parseIntChars : List Char → Option Int
  | '-' :: rest => (parseNatChars rest).map (fun n => -(n : Int))
  | l => (parseNatChars l).map (fun n => (n : Int))

/-- Model of `time.Format(time.RFC3339)` on an instant in seconds. -/
def formatRFC3339 (t : Int) : String := "rfc3339:" ++ toString t

/-- Model of `time.Parse(time.RFC3339, s)`: `none` models a parse error; in
particular the empty string and any string without the instant marker fail
to parse. -/
def parseRFC3339 (s : String) : Option Int :=
  match s.toList with
  | 'r' :: 'f' :: 'c' :: '3' :: '3' :: '3' :: '9' :: ':' :: rest => parseIntChars rest
  | _ => none

/-! ### Data model -/

/-- A status error (`apierrors.MachineError` / `apierrors.ClusterError`):
a reason code and a human message. -/
structure StatusError where
  reason : String
  message : String
deriving DecidableEq, Repr, Inhabited

/-- A cluster object, reduced to the fields the embedded functions touch:
namespace, the annotation map (`none` models a nil Go map), and the status
error fields set by `HandleClusterError`. -/
structure Cluster where
  ns : String := ""
  anns : Option (List (String × String)) := none
  errorReason : String := ""
  errorMessage : String := ""
deriving DecidableEq, Repr, Inhabited

/-- A machine object: namespace and the status error pointer fields set by
`HandleMachineError` (`none` models a nil Go pointer). -/
structure Machine where
  ns : String := ""
  errorReason : Option String := none
  errorMessage : Option String := none
deriving DecidableEq, Repr, Inhabited

/-- Model of `DeepCopy` on a cluster: a full value copy. -/
def Cluster.deepCopy (c : Cluster) : Cluster := c

/-- Model of `DeepCopy` on a machine: a full value copy. -/
def Machine.deepCopy (m : Machine) : Machine := m

/-- Go map lookup `m[k]` restricted to present keys (`v, ok := m[k]`). -/
def annLookup : List (String × String) → String → Option String
  | [], _ => none
  | kv :: tl, k => if kv.fst = k then some kv.snd else annLookup tl k

/-- Go map lookup `m[k]` with the zero-value default for a missing key. -/
def annLookupD (l : List (String × String)) (k : String) : String :=
  (annLookup l k).getD ("")

/-- Go map assignment `m[k] = v`. -/
def annSet (l : List (String × String)) (k v : String) : List (String × String) :=
  if (annLookup l k).isSome then
    l.map (fun kv => if kv.fst = k then (k, v) else kv)
  else l ++ [(k, v)]

/-- Assignment `ncluster.ObjectMeta.Annotations[k] = v` on a cluster object (the map is
non-nil at every use site). -/
def Cluster.setAnn (c : Cluster) (k v : String) : Cluster :=
  { c with anns := some (annSet (c.anns.getD []) k v) }

/-- Embedding of `if ncluster.ObjectMeta.Annotations == nil { ... = make(map[string]string) }`. -/
def Cluster.ensureAnns (c : Cluster) : Cluster :=
  if c.anns = none then { c with anns := some [] } else c

/-! ### The remote secret store -/

/-- Error values of the remote kube API, as far as the code distinguishes
them: `machineryerrors.IsAlreadyExists` singles out `alreadyExists`. -/
inductive APIError
  | alreadyExists
  | notFound
  | other (msg : String)
deriving DecidableEq, Repr

/-- Predicate `machineryerrors.IsAlreadyExists`. -/
def APIError.isAlreadyExists : APIError → Bool
  | .alreadyExists => true
  | _ => false

/-- The `err.Error()` string of an API error. -/
def APIError.msg : APIError → String
  | .alreadyExists => "already exists"
  | .notFound => "not found"
  | .other m => m

/-- A kube secret: name, namespace, type and the byte-map payload (byte
slices rendered as strings). -/
structure KSecret where
  name : String
  ns : String
  secretType : String
  data : List (String × String)
deriving DecidableEq, Repr

/-- The remote secret store: the list of stored secrets, keyed by
namespace + name. -/
abbrev SecretStore := List KSecret

/-- Two secrets collide iff they have the same namespace and name. -/
def sameKey (a b : KSecret) : Bool := a.ns = b.ns && a.name = b.name

/-- Semantics of `Secrets(ns).Create(s)`: fails with `alreadyExists` iff a
secret with the same key is stored, otherwise inserts.  `fault` injects a
transport-level failure (the call fails without touching the store). -/
def storeCreate (fault : Option APIError) (store : SecretStore) (s : KSecret) :
    Except APIError Unit × SecretStore :=
  match fault with
  | some e => (Except.error e, store)
  | none =>
    if store.any (fun t => sameKey t s) then (Except.error APIError.alreadyExists, store)
    else (Except.ok (), store ++ [s])

/-- Semantics of `Secrets(ns).Update(s)`: replaces the stored secret with the
same key, fails with `notFound` when none is stored.  `fault` injects a
transport-level failure. -/
def storeUpdate (fault : Option APIError) (store : SecretStore) (s : KSecret) :
    Except APIError Unit × SecretStore :=
  match fault with
  | some e => (Except.error e, store)
  | none =>
    if store.any (fun t => sameKey t s) then
      (Except.ok (), store.map (fun t => if sameKey t s then s else t))
    else (Except.error APIError.notFound, store)

/-! ### Environment and traces -/

/-- Outcomes the external collaborators produce during one call.

* `now` — the clock (`time.Now()`), one instant for the whole call.
* `controlPlane` — result of `vsphereutils.GetControlPlaneMachinesForCluster`
  (repository code outside the provided sources; modelled from the spec as a
  control-plane locator returning the set of control-plane node references or
  an error).
* `kubeConfig` — result of `pv.GetKubeConfig` (the kube-config secret bytes
  held by the management store).
* `generated` — result of `tokenutil.GenerateBootstrapToken`.
* `restConfig` — result of `clientcmd.RESTConfigFromKubeConfig`.
* `clientset` — result of `kubernetes.NewForConfig`.
* `createFault` / `updateFault` — injected transport failures of the secret
  create / update calls (`none`: the store semantics decides).
* `clusterUpdate` — result of `Clusters(ns).Update` (`none`: success). -/
structure Env where
  now : Int
  controlPlane : Except String (List String)
  kubeConfig : Except String String
  generated : Except String String
  restConfig : Except String Unit
  clientset : Except String Unit
  createFault : Option APIError := none
  updateFault : Option APIError := none
  clusterUpdate : Option String := none

/-- Remote calls made during one `GetKubeadmToken` invocation, with payloads
where a claim mentions them. -/
structure Trace where
  listerCalls : Nat := 0
  kubeConfigGets : Nat := 0
  generateCalls : Nat := 0
  secretCreates : List KSecret := []
  secretUpdates : List KSecret := []
  clusterUpdates : List Cluster := []
deriving DecidableEq, Repr

/-- The empty trace: no remote calls. -/
def Trace.none : Trace := {}

/-! ### createKubeadmToken -/

/-- Result of `createKubeadmToken`: the Go pair `(string, error)` plus the
final secret store and the call trace. -/
structure MintResult where
  token : String
  err : Option String
  store : SecretStore
  trace : Trace
deriving DecidableEq, Repr

/-- The durable credential secret built on a mint at instant `now` from the
full generated `token` (lines 81-101 of the source). -/
def mintedSecret (now : Int) (token : String) : KSecret :=
  let tokenID := (token.toList.take BootstrapTokenIDBytes).asString
  let tokenSecret := (token.toList.drop (BootstrapTokenIDBytes + 1)).asString
  let expiration := formatRFC3339 (now + KubeadmTokenTtl)
  { name := BootstrapTokenSecretName tokenID
    ns := NamespaceSystem
    secretType := SecretTypeBootstrapToken
    data :=
      [ (BootstrapTokenIDKey, tokenID)
      , (BootstrapTokenSecretKey, tokenSecret)
      , (BootstrapTokenExpirationKey, expiration)
      , (BootstrapTokenUsageAuthentication, "true")
      , (BootstrapTokenUsageSigningKey, "true")
      , (BootstrapTokenExtraGroupsKey, "system:bootstrappers:kubeadm:default-node-token")
      , (BootstrapTokenDescriptionKey, "bootstrap token generated by cluster-api-provider-vsphere") ] }

/-- Embedding of `(pv *Provisioner) createKubeadmToken(kubeconfig string)`.
Generates the token, builds the credential secret, connects to the target
cluster and creates the secret, falling back to an update when the create
reports "already exists".  The `kubeconfig` argument only feeds
`RESTConfigFromKubeConfig`, whose outcome `env.restConfig` models. -/
def createKubeadmToken (env : Env) (store : SecretStore) (_kubeconfig : String) :
    MintResult :=
  match env.generated with
  | Except.error e =>
    { token := "", err := some ("unable to create kubeadm token: " ++ e)
      store := store, trace := { generateCalls := 1 } }
  | Except.ok token =>
    if token = "" then
      { token := "", err := some ("unable to create kubeadm token: <nil>")
        store := store, trace := { generateCalls := 1 } }
    else
      let secret := mintedSecret env.now token
      match env.restConfig with
      | Except.error e =>
        { token := "", err := some e, store := store, trace := { generateCalls := 1 } }
      | Except.ok _ =>
        match env.clientset with
        | Except.error e =>
          { token := "", err := some e, store := store, trace := { generateCalls := 1 } }
        | Except.ok _ =>
          match storeCreate env.createFault store secret with
          | (Except.ok _, store1) =>
            { token := token, err := none, store := store1
              trace := { generateCalls := 1, secretCreates := [secret] } }
          | (Except.error ce, store1) =>
            if ¬ ce.isAlreadyExists then
              { token := "", err := some ("unable to create bootstrap token secret: " ++ ce.msg)
                store := store1
                trace := { generateCalls := 1, secretCreates := [secret] } }
            else
              match storeUpdate env.updateFault store1 secret with
              | (Except.ok _, store2) =>
                { token := token, err := none, store := store2
                  trace := { generateCalls := 1, secretCreates := [secret]
                             secretUpdates := [secret] } }
              | (Except.error ue, store2) =>
                { token := "", err := some ("unable to update bootstrap token secret: " ++ ue.msg)
                  store := store2
                  trace := { generateCalls := 1, secretCreates := [secret]
                             secretUpdates := [secret] } }

/-! ### A heap of objects

Go passes `*Cluster` / `*Machine` pointers; `DeepCopy` allocates a fresh
object and mutations write through a pointer.  A heap is a list of objects,
a pointer is an index into it. -/

/-- Read the object a pointer refers to. -/
def heapGet [Inhabited α] (h : List α) (p : Nat) : α := (h.getD p default)

/-- Write through a pointer. -/
def heapSet (h : List α) (p : Nat) (a : α) : List α := h.set p a

/-- Allocate a fresh object; returns the new heap and the fresh pointer. -/
def heapAlloc (h : List α) (a : α) : List α × Nat := (h ++ [a], h.length)

/-! ### GetKubeadmToken -/

/-- Result of `GetKubeadmToken`: the Go pair `(string, error)`, the final
secret store, the final cluster heap, and the call trace. -/
structure TokenResult where
  token : String
  err : Option String
  store : SecretStore
  heap : List Cluster
  trace : Trace
deriving DecidableEq, Repr

/-- The cache check of `GetKubeadmToken` (lines 30-37 of the source): the
cached token, when the annotation map is non-nil, carries the token key, and
the expiry annotation parses with more than `KubeadmTokenLeftTime` remaining.
A missing expiry annotation reads as `""`, which fails to parse. -/
def cachedToken (now : Int) (c : Cluster) : Option String :=
  match c.anns with
  | none => none
  | some l =>
    match annLookup l KubeadmToken with
    | none => none
    | some token =>
      match parseRFC3339 (annLookupD l KubeadmTokenExpiryTime) with
      | none => none
      | some expiry => if expiry - now > KubeadmTokenLeftTime then some token else none

/-- Embedding of `(pv *Provisioner) GetKubeadmToken(cluster *clusterv1.Cluster)`.
`p` is the caller's pointer into the cluster heap `h`.  On a cache hit the
cached token is returned with no remote call.  Otherwise the control plane is
located, the kube-config fetched, a token minted and persisted, and the new
token and a fresh expiry are written onto a deep copy of the cluster, which is
sent to `Clusters(ns).Update`; the function ends with `return token, err`
where `err` is the update call's error. -/
def GetKubeadmToken (env : Env) (store : SecretStore) (h : List Cluster) (p : Nat) :
    TokenResult :=
  let cluster := heapGet h p
  match cachedToken env.now cluster with
  | some token =>
    { token := token, err := none, store := store, heap := h, trace := {} }
  | none =>
    match env.controlPlane with
    | Except.error e =>
      { token := "", err := some e, store := store, heap := h
        trace := { listerCalls := 1 } }
    | Except.ok controlPlaneMachines =>
      if controlPlaneMachines.length = 0 then
        { token := "", err := some ("No control plane nodes available")
          store := store, heap := h, trace := { listerCalls := 1 } }
      else
        match env.kubeConfig with
        | Except.error e =>
          { token := "", err := some e, store := store, heap := h
            trace := { listerCalls := 1, kubeConfigGets := 1 } }
        | Except.ok kubeconfig =>
          let m := createKubeadmToken env store kubeconfig
          match m.err with
          | some e =>
            { token := "", err := some e, store := m.store, heap := h
              trace := { m.trace with listerCalls := 1, kubeConfigGets := 1 } }
          | none =>
            let (h1, np) := heapAlloc h cluster.deepCopy
            let h2 := heapSet h1 np (heapGet h1 np).ensureAnns
            let h3 := heapSet h2 np ((heapGet h2 np).setAnn KubeadmToken m.token)
            let h4 := heapSet h3 np
              ((heapGet h3 np).setAnn KubeadmTokenExpiryTime
                (formatRFC3339 (env.now + KubeadmTokenTtl)))
            let payload := heapGet h4 np
            { token := m.token, err := env.clusterUpdate, store := m.store, heap := h4
              trace := { m.trace with
                         listerCalls := 1
                         kubeConfigGets := 1
                         clusterUpdates := [payload] } }

/-! ### HandleMachineError / HandleClusterError -/

/-- An emitted event: severity type, reason (`"Failed" + eventAction`) and the
formatted detail. -/
structure Event where
  eventType : String
  reason : String
  detail : String
deriving DecidableEq, Repr

/-- Result of `HandleMachineError`: the returned error value, the final
machine heap, the payloads sent to `UpdateStatus`, and the emitted events. -/
structure MachineErrResult where
  ret : StatusError
  heap : List Machine
  statusUpdates : List Machine
  events : List Event
deriving DecidableEq, Repr

/-- Result of `HandleClusterError`. -/
structure ClusterErrResult where
  ret : StatusError
  heap : List Cluster
  statusUpdates : List Cluster
  events : List Event
deriving DecidableEq, Repr

/-- Embedding of `HandleMachineError(machine, err, eventAction)`.  `hasClient`
models `pv.clusterV1alpha1 != nil`; `p` is the caller's pointer into the
machine heap.  When a client is configured the status reason/message are set
on a deep copy which is sent to `UpdateStatus` (its result is discarded by the
source); when `eventAction` is non-empty a warning event is emitted; the
original error is always returned. -/
def HandleMachineError (hasClient : Bool) (h : List Machine) (p : Nat)
    (err : StatusError) (eventAction : String) : MachineErrResult :=
  let machine := heapGet h p
  let su :=
    if hasClient then
      let (h1, np) := heapAlloc h machine.deepCopy
      let h2 := heapSet h1 np { heapGet h1 np with errorReason := some err.reason }
      let h3 := heapSet h2 np { heapGet h2 np with errorMessage := some err.message }
      (h3, [heapGet h3 np])
    else (h, [])
  let events :=
    if eventAction ≠ "" then
      [{ eventType := "Warning", reason := "Failed" ++ eventAction
         detail := err.reason : Event }]
    else []
  { ret := err, heap := su.fst, statusUpdates := su.snd, events := events }

/-- Embedding of `HandleClusterError(cluster, err, eventAction)`; structurally
identical to `HandleMachineError` with the cluster's plain status fields. -/
def HandleClusterError (hasClient : Bool) (h : List Cluster) (p : Nat)
    (err : StatusError) (eventAction : String) : ClusterErrResult :=
  let cluster := heapGet h p
  let su :=
    if hasClient then
      let (h1, np) := heapAlloc h cluster.deepCopy
      let h2 := heapSet h1 np { heapGet h1 np with errorReason := err.reason }
      let h3 := heapSet h2 np { heapGet h2 np with errorMessage := err.message }
      (h3, [heapGet h3 np])
    else (h, [])
  let events :=
    if eventAction ≠ "" then
      [{ eventType := "Warning", reason := "Failed" ++ eventAction
         detail := err.reason : Event }]
    else []
  { ret := err, heap := su.fst, statusUpdates := su.snd, events := events }

/-! ### Helper lemmas on annotation maps, the heap and the store -/

lemma annLookup_annSet_self (l : List (String × String)) (k v : String) :
    annLookup (annSet l k v) k = some v := by
  by_cases h : (annLookup l k).isSome
  · rw [annSet, if_pos h]
    induction l with
    | nil => simp [annLookup] at h
    | cons hd tl ih =>
      by_cases hk : hd.fst = k
      · simp [annLookup, hk]
      · simp only [annLookup, hk, if_false, if_neg hk] at h
        simp [List.map_cons, annLookup, hk, ih h]
  · rw [annSet, if_neg h]
    induction l with
    | nil => simp [annLookup]
    | cons hd tl ih =>
      by_cases hk : hd.fst = k
      · simp [annLookup, hk] at h
      · simp only [annLookup, hk, if_neg hk] at h
        simp [List.cons_append, annLookup, hk, ih h]

lemma annLookup_mapset_ne (l : List (String × String)) (k v k' : String)
    (hne : k' ≠ k) :
    annLookup (l.map (fun kv => if kv.fst = k then (k, v) else kv)) k' =
      annLookup l k' := by
  have hne' : ¬ (k = k') := fun hh => hne hh.symm
  induction l with
  | nil => simp
  | cons hd tl ih =>
    by_cases hk : hd.fst = k
    · simp [annLookup, hk, hne', ih]
    · simp [annLookup, hk, ih]

lemma annLookup_append_ne (l : List (String × String)) (k v k' : String)
    (hne : k' ≠ k) : annLookup (l ++ [(k, v)]) k' = annLookup l k' := by
  have hne' : ¬ (k = k') := fun hh => hne hh.symm
  induction l with
  | nil => simp [annLookup, hne']
  | cons hd tl ih =>
    by_cases hk : hd.fst = k'
    · simp [annLookup, hk]
    · simp [annLookup, hk, ih]

lemma annLookup_annSet_ne (l : List (String × String)) (k v k' : String)
    (hne : k' ≠ k) : annLookup (annSet l k v) k' = annLookup l k' := by
  by_cases h : (annLookup l k).isSome
  · rw [annSet, if_pos h]
    exact annLookup_mapset_ne l k v k' hne
  · rw [annSet, if_neg h]
    exact annLookup_append_ne l k v k' hne

lemma heapGet_append_lt [Inhabited α] (l : List α) (a : α) (p : Nat)
    (h : p < l.length) : heapGet (l ++ [a]) p = heapGet l p := by
  simp [heapGet, List.getElem?_append, if_pos h, List.getD]

lemma heapGet_append_len [Inhabited α] (l : List α) (a : α) :
    heapGet (l ++ [a]) l.length = a := by
  simp [heapGet, List.getD, List.getElem?_append_right (Nat.le_refl l.length)]

lemma heapGet_set_ne [Inhabited α] (l : List α) (p q : Nat) (a : α)
    (h : p ≠ q) : heapGet (heapSet l p a) q = heapGet l q := by
  simp [heapGet, heapSet, List.getD, List.getElem?_set_ne h]

lemma heapGet_set_self [Inhabited α] (l : List α) (p : Nat) (a : α)
    (h : p < l.length) : heapGet (heapSet l p a) p = a := by
  simp [heapGet, heapSet, List.getD, List.getElem?_set_eq_of_lt _ h]

lemma length_heapSet (l : List α) (p : Nat) (a : α) :
    (heapSet l p a).length = l.length := by
  simp [heapSet]

lemma sameKey_self (s : KSecret) : sameKey s s = true := by
  simp [sameKey]

/-- On a fresh-enough cached token the cache check returns it. -/
lemma cachedToken_of_hit (now : Int) (c : Cluster) (l : List (String × String))
    (token : String) (expiry : Int)
    (hanns : c.anns = some l)
    (htok : annLookup l KubeadmToken = some token)
    (hexp : parseRFC3339 (annLookupD l KubeadmTokenExpiryTime) = some expiry)
    (hfresh : expiry - now > KubeadmTokenLeftTime) :
    cachedToken now c = some token := by
  unfold cachedToken
  rw [hanns]
  simp only [htok, hexp]
  simp [hfresh]

/-- C2: a cluster whose annotations carry a cached token and an expiry that
parses with more than the minimum remaining lifetime left gets exactly the
cached token back with a nil error, and the call performs no remote calls:
the trace is empty (no control-plane lookup, no kube-config fetch, no token
generation, no secret write, no cluster update), the secret store and the
heap are untouched. -/
theorem getKubeadmToken_cache_hit (env : Env) (store : SecretStore)
    (h : List Cluster) (p : Nat) (l : List (String × String))
    (token : String) (expiry : Int)
    (hanns : (heapGet h p).anns = some l)
    (htok : annLookup l KubeadmToken = some token)
    (hexp : parseRFC3339 (annLookupD l KubeadmTokenExpiryTime) = some expiry)
    (hfresh : expiry - env.now > KubeadmTokenLeftTime) :
    GetKubeadmToken env store h p =
      { token := token, err := none, store := store, heap := h, trace := {} } := by
  have hc : cachedToken env.now (heapGet h p) = some token :=
    cachedToken_of_hit env.now (heapGet h p) l token expiry hanns htok hexp hfresh
  unfold GetKubeadmToken
  simp [hc]

/-- A cluster carrying a cached token expiring at instant 5000. -/
def lHit : List (String × String) :=
  [(KubeadmToken, "tok123"), (KubeadmTokenExpiryTime, "rfc3339:5000")]

/-- A cluster object carrying the cached-token annotations of `lHit`. -/
def cHit : Cluster := { anns := some lHit }

/-- An environment at instant 0 in which every remote collaborator would
fail, so that any remote call on the cache-hit path would surface as an
error. -/
def envHit : Env :=
  { now := 0
    controlPlane := Except.error ("lister called")
    kubeConfig := Except.error ("kubeconfig called")
    generated := Except.error ("generator called")
    restConfig := Except.error ("restconfig called")
    clientset := Except.error ("clientset called")
    clusterUpdate := some ("cluster update called") }

/-- C2 witness: the cache-hit theorem applied at a concrete cluster whose
expiry (5000) minus now (0) exceeds the minimum remaining lifetime (600). -/
theorem getKubeadmToken_cache_hit_witness :
    GetKubeadmToken envHit [] [cHit] 0 =
      { token := "tok123", err := none, store := [], heap := [cHit], trace := {} } :=
  getKubeadmToken_cache_hit envHit [] [cHit] 0 lHit ("tok123") 5000
    (by decide) (by decide) (by decide) (by decide)

/-- C6: `HandleMachineError` and `HandleClusterError` return exactly the
error value passed in, for every machine/cluster heap and pointer, every
error, every event action, and whether or not the status-update client is
configured (`hasClient`); the status update's own outcome is discarded by the
source, so nothing else can influence the returned value. -/
theorem handleErrors_return_original_error
    (hasClient : Bool) (hm : List Machine) (pm : Nat)
    (errm : StatusError) (actionm : String)
    (hasClient' : Bool) (hc : List Cluster) (pc : Nat)
    (errc : StatusError) (actionc : String) :
    (HandleMachineError hasClient hm pm errm actionm).ret = errm ∧
    (HandleClusterError hasClient' hc pc errc actionc).ret = errc :=
  ⟨rfl, rfl⟩

/-- A cluster object with a nil annotation map. -/
def cNoAnn : Cluster := {}

/-- An environment at instant 0 in which every collaborator succeeds: one
control-plane machine, a kube-config, a fresh generated token, and a working
remote client. -/
def envMint : Env :=
  { now := 0
    controlPlane := Except.ok ["cp0"]
    kubeConfig := Except.ok ("kc")
    generated := Except.ok ("abcdef.0123456789abcdef")
    restConfig := Except.ok ()
    clientset := Except.ok () }

/-- C8: the functions never mutate the object the caller's pointer refers
to.  `GetKubeadmToken` writes the new annotations only onto the freshly
allocated deep copy, and `HandleMachineError` / `HandleClusterError` set the
status fields only on their deep copies, so the heap cell at the caller's
pointer is unchanged after each call. -/
theorem callers_object_unchanged (env : Env) (store : SecretStore)
    (h : List Cluster) (p : Nat) (hp : p < h.length)
    (hasClient : Bool) (hm : List Machine) (pm : Nat)
    (errm : StatusError) (actionm : String) (hpm : pm < hm.length)
    (hasClient' : Bool) (hc : List Cluster) (pc : Nat)
    (errc : StatusError) (actionc : String) (hpc : pc < hc.length) :
    heapGet (GetKubeadmToken env store h p).heap p = heapGet h p ∧
    heapGet (HandleMachineError hasClient hm pm errm actionm).heap pm = heapGet hm pm ∧
    heapGet (HandleClusterError hasClient' hc pc errc actionc).heap pc = heapGet hc pc := by
  refine ⟨?_, ?_, ?_⟩
  · cases hct : cachedToken env.now (heapGet h p) with
    | some t => simp [GetKubeadmToken, hct]
    | none =>
      cases hcp : env.controlPlane with
      | error e => simp [GetKubeadmToken, hct, hcp]
      | ok cps =>
        by_cases hlen : cps.length = 0
        · simp [GetKubeadmToken, hct, hcp, hlen]
        · cases hkc : env.kubeConfig with
          | error e => simp [GetKubeadmToken, hct, hcp, hlen, hkc]
          | ok kc =>
            cases hme : (createKubeadmToken env store kc).err with
            | some e => simp [GetKubeadmToken, hct, hcp, hlen, hkc, hme]
            | none =>
              simp [GetKubeadmToken, hct, hcp, hlen, hkc, hme, heapAlloc]
              rw [heapGet_set_ne _ _ _ _ (Ne.symm (ne_of_lt hp)),
                heapGet_set_ne _ _ _ _ (Ne.symm (ne_of_lt hp)),
                heapGet_set_ne _ _ _ _ (Ne.symm (ne_of_lt hp)),
                heapGet_append_lt _ _ _ hp]
  · cases hasClient with
    | false => rfl
    | true =>
      simp only [HandleMachineError, heapAlloc, if_pos trivial, Bool.ite_eq_true_distrib]
      rw [heapGet_set_ne _ _ _ _ (Ne.symm (ne_of_lt hpm)),
        heapGet_set_ne _ _ _ _ (Ne.symm (ne_of_lt hpm)),
        heapGet_append_lt _ _ _ hpm]
  · cases hasClient' with
    | false => rfl
    | true =>
      simp only [HandleClusterError, heapAlloc, if_pos trivial, Bool.ite_eq_true_distrib]
      rw [heapGet_set_ne _ _ _ _ (Ne.symm (ne_of_lt hpc)),
        heapGet_set_ne _ _ _ _ (Ne.symm (ne_of_lt hpc)),
        heapGet_append_lt _ _ _ hpc]

/-- C8 witness: at a concrete one-cell heap each function leaves the caller's
cell untouched. -/
theorem callers_object_unchanged_witness :
    heapGet (GetKubeadmToken envMint [] [cNoAnn] 0).heap 0 = heapGet [cNoAnn] 0 ∧
    heapGet (HandleMachineError true [{}] 0 ⟨"r", "m"⟩ "Create").heap 0 =
      heapGet ([{}] : List Machine) 0 ∧
    heapGet (HandleClusterError true [cHit] 0 ⟨"r", "m"⟩ "Update").heap 0 =
      heapGet [cHit] 0 :=
  callers_object_unchanged envMint [] [cNoAnn] 0 (by decide)
    true [{}] 0 ⟨"r", "m"⟩ "Create" (by decide)
    true [cHit] 0 ⟨"r", "m"⟩ "Update" (by decide)

/-- When generation yielded `t` and the mint reports no error, the returned
token is `t`. -/
lemma mint_token_eq (env : Env) (store : SecretStore) (kc : String) (t : String)
    (hg : env.generated = Except.ok t)
    (he : (createKubeadmToken env store kc).err = none) :
    (createKubeadmToken env store kc).token = t := by
  by_cases ht : t = ""
  · subst ht; simp [createKubeadmToken, hg] at he
  · cases hrc : env.restConfig with
    | error e => simp [createKubeadmToken, hg, ht, hrc] at he
    | ok u =>
      cases hcs : env.clientset with
      | error e => simp [createKubeadmToken, hg, ht, hrc, hcs] at he
      | ok v =>
        rcases hsc : storeCreate env.createFault store (mintedSecret env.now t) with ⟨r1, st1⟩
        cases r1 with
        | ok w => simp [createKubeadmToken, hg, ht, hrc, hcs, hsc]
        | error ce =>
          by_cases hae : ce.isAlreadyExists
          · rcases hsu : storeUpdate env.updateFault st1 (mintedSecret env.now t) with ⟨r2, st2⟩
            cases r2 with
            | ok w => simp [createKubeadmToken, hg, ht, hrc, hcs, hsc, hae, hsu]
            | error ue => simp [createKubeadmToken, hg, ht, hrc, hcs, hsc, hae, hsu] at he
          · simp [createKubeadmToken, hg, ht, hrc, hcs, hsc, hae] at he

/-- C9: `createKubeadmToken` fails with a generation error — and performs no
store call at all — whenever the generator returned an error or an empty
token; and whenever it reports no error the returned token is non-empty. -/
theorem createKubeadmToken_generation_failure (env : Env) (store : SecretStore)
    (kc : String) :
    (∀ e, env.generated = Except.error e →
      createKubeadmToken env store kc =
        { token := "", err := some ("unable to create kubeadm token: " ++ e)
          store := store, trace := { generateCalls := 1 } }) ∧
    (env.generated = Except.ok ("") →
      createKubeadmToken env store kc =
        { token := "", err := some ("unable to create kubeadm token: <nil>")
          store := store, trace := { generateCalls := 1 } }) ∧
    ((createKubeadmToken env store kc).err = none →
      (createKubeadmToken env store kc).token ≠ "") := by
  refine ⟨?_, ?_, ?_⟩
  · intro e hg
    simp [createKubeadmToken, hg]
  · intro hg
    simp [createKubeadmToken, hg]
  · intro he
    cases hg : env.generated with
    | error e => simp [createKubeadmToken, hg] at he
    | ok t =>
      rw [mint_token_eq env store kc t hg he]
      intro ht
      subst ht
      simp [createKubeadmToken, hg] at he

/-- An environment whose token generator fails. -/
def envGenFail : Env := { envMint with generated := Except.error ("entropy exhausted") }

/-- C9 witness: with a failing generator the mint returns the generation
error and leaves the store untouched with no create/update call. -/
theorem createKubeadmToken_generation_failure_witness :
    createKubeadmToken envGenFail [] "kc" =
      { token := "", err := some ("unable to create kubeadm token: entropy exhausted")
        store := [], trace := { generateCalls := 1 } } :=
  (createKubeadmToken_generation_failure envGenFail [] "kc").1 ("entropy exhausted") rfl

/-- C4: the adapter first attempts one create with the minted payload; when
the create succeeds there is no update call and no error; when the create
fails with the distinguishable "already exists" condition there is exactly
one update call with the same payload, and the call succeeds iff the update
does; any other create error propagates with no update call, and an update
error after the conflict propagates. -/
theorem upsert_conflict_fallback (env : Env) (store : SecretStore) (kc t : String)
    (hg : env.generated = Except.ok t) (ht : t ≠ "")
    (hrc : env.restConfig = Except.ok ()) (hcs : env.clientset = Except.ok ()) :
    (createKubeadmToken env store kc).trace.secretCreates = [mintedSecret env.now t] ∧
    (∀ st1, storeCreate env.createFault store (mintedSecret env.now t) = (Except.ok (), st1) →
      (createKubeadmToken env store kc).trace.secretUpdates = [] ∧
      (createKubeadmToken env store kc).err = none ∧
      (createKubeadmToken env store kc).store = st1) ∧
    (∀ e st1, storeCreate env.createFault store (mintedSecret env.now t) = (Except.error e, st1) →
      (e.isAlreadyExists = true →
        (createKubeadmToken env store kc).trace.secretUpdates = [mintedSecret env.now t] ∧
        (∀ st2, storeUpdate env.updateFault st1 (mintedSecret env.now t) = (Except.ok (), st2) →
          (createKubeadmToken env store kc).err = none ∧
          (createKubeadmToken env store kc).store = st2) ∧
        (∀ ue st2, storeUpdate env.updateFault st1 (mintedSecret env.now t) = (Except.error ue, st2) →
          (createKubeadmToken env store kc).err =
            some ("unable to update bootstrap token secret: " ++ ue.msg) ∧
          (createKubeadmToken env store kc).store = st2)) ∧
      (e.isAlreadyExists = false →
        (createKubeadmToken env store kc).trace.secretUpdates = [] ∧
        (createKubeadmToken env store kc).err =
          some ("unable to create bootstrap token secret: " ++ e.msg) ∧
        (createKubeadmToken env store kc).store = st1)) := by
  refine ⟨?_, ?_, ?_⟩
  · rcases hsc : storeCreate env.createFault store (mintedSecret env.now t) with ⟨r1, st1⟩
    cases r1 with
    | ok w => simp [createKubeadmToken, hg, ht, hrc, hcs, hsc]
    | error ce =>
      by_cases hae : ce.isAlreadyExists
      · rcases hsu : storeUpdate env.updateFault st1 (mintedSecret env.now t) with ⟨r2, st2⟩
        cases r2 with
        | ok w => simp [createKubeadmToken, hg, ht, hrc, hcs, hsc, hae, hsu]
        | error ue => simp [createKubeadmToken, hg, ht, hrc, hcs, hsc, hae, hsu]
      · simp [createKubeadmToken, hg, ht, hrc, hcs, hsc, hae]
  · intro st1 hsc
    simp [createKubeadmToken, hg, ht, hrc, hcs, hsc]
  · intro e st1 hsc
    refine ⟨?_, ?_⟩
    · intro hae
      refine ⟨?_, ?_, ?_⟩
      · rcases hsu : storeUpdate env.updateFault st1 (mintedSecret env.now t) with ⟨r2, st2⟩
        cases r2 with
        | ok w => simp [createKubeadmToken, hg, ht, hrc, hcs, hsc, hae, hsu]
        | error ue => simp [createKubeadmToken, hg, ht, hrc, hcs, hsc, hae, hsu]
      · intro st2 hsu
        simp [createKubeadmToken, hg, ht, hrc, hcs, hsc, hae, hsu]
      · intro ue st2 hsu
        simp [createKubeadmToken, hg, ht, hrc, hcs, hsc, hae, hsu]
    · intro hae
      simp [createKubeadmToken, hg, ht, hrc, hcs, hsc, hae]

/-- The token `envMint` generates. -/
def tokMint : String := "abcdef.0123456789abcdef"

/-- C4 witness: with the minted secret already stored, the create reports
"already exists", exactly one update with the same payload is issued, and
the call returns no error. -/
theorem upsert_conflict_fallback_witness :
    (createKubeadmToken envMint [mintedSecret 0 tokMint] "kc").trace.secretUpdates =
      [mintedSecret 0 tokMint] ∧
    (createKubeadmToken envMint [mintedSecret 0 tokMint] "kc").err = none := by
  have h := upsert_conflict_fallback envMint [mintedSecret 0 tokMint] "kc" tokMint
    rfl (by decide) rfl rfl
  have hc := (h.2.2 APIError.alreadyExists [mintedSecret 0 tokMint] (by rfl)).1 rfl
  exact ⟨hc.1, (hc.2.1 [mintedSecret 0 tokMint] (by rfl)).1⟩

/-- C7: the durable credential record appended to the store on a first-time
mint has exactly the fixed field keys — identifier, secret, expiration, the
two usage booleans, groups, description — with both usage flags `"true"`,
the fixed default group and description, and an RFC3339 expiration equal to
now plus the fixed TTL; its name derives from the identifier and it lives in
the system namespace with the bootstrap-token type. -/
theorem minted_record_shape (env : Env) (store : SecretStore) (kc t : String)
    (hg : env.generated = Except.ok t) (ht : t ≠ "")
    (hrc : env.restConfig = Except.ok ()) (hcs : env.clientset = Except.ok ())
    (hcf : env.createFault = none)
    (hnew : store.any (fun u => sameKey u (mintedSecret env.now t)) = false) :
    (createKubeadmToken env store kc).store =
      store ++
        [{ name := BootstrapTokenSecretName ((t.toList.take BootstrapTokenIDBytes).asString)
           ns := NamespaceSystem
           secretType := SecretTypeBootstrapToken
           data :=
             [ (BootstrapTokenIDKey, (t.toList.take BootstrapTokenIDBytes).asString)
             , (BootstrapTokenSecretKey, (t.toList.drop (BootstrapTokenIDBytes + 1)).asString)
             , (BootstrapTokenExpirationKey, formatRFC3339 (env.now + KubeadmTokenTtl))
             , (BootstrapTokenUsageAuthentication, "true")
             , (BootstrapTokenUsageSigningKey, "true")
             , (BootstrapTokenExtraGroupsKey, "system:bootstrappers:kubeadm:default-node-token")
             , (BootstrapTokenDescriptionKey,
                "bootstrap token generated by cluster-api-provider-vsphere") ] }] := by
  have hcr : storeCreate env.createFault store (mintedSecret env.now t) =
      (Except.ok (), store ++ [mintedSecret env.now t]) := by
    simp [storeCreate, hcf, hnew]
  simp [createKubeadmToken, hg, ht, hrc, hcs, hcr]
  simp [mintedSecret]

/-- C7 witness: the record shape at the concrete mint environment. -/
theorem minted_record_shape_witness :
    (createKubeadmToken envMint [] "kc").store =
      [{ name := BootstrapTokenSecretName ((tokMint.toList.take BootstrapTokenIDBytes).asString)
         ns := NamespaceSystem
         secretType := SecretTypeBootstrapToken
         data :=
           [ (BootstrapTokenIDKey, (tokMint.toList.take BootstrapTokenIDBytes).asString)
           , (BootstrapTokenSecretKey, (tokMint.toList.drop (BootstrapTokenIDBytes + 1)).asString)
           , (BootstrapTokenExpirationKey, formatRFC3339 (0 + KubeadmTokenTtl))
           , (BootstrapTokenUsageAuthentication, "true")
           , (BootstrapTokenUsageSigningKey, "true")
           , (BootstrapTokenExtraGroupsKey, "system:bootstrappers:kubeadm:default-node-token")
           , (BootstrapTokenDescriptionKey,
              "bootstrap token generated by cluster-api-provider-vsphere") ] }] :=
  minted_record_shape envMint [] "kc" tokMint rfl (by decide) rfl rfl rfl rfl

/-- Replacing every key-colliding entry by `s` is the identity on a store in
which every key-colliding entry already equals `s`. -/
lemma mapset_id (store : SecretStore) (s : KSecret)
    (hall : ∀ u ∈ store, sameKey u s = true → u = s) :
    store.map (fun u => if sameKey u s then s else u) = store := by
  induction store with
  | nil => rfl
  | cons hd tl ih =>
    have htl : ∀ u ∈ tl, sameKey u s = true → u = s := by
      intro u hu
      exact hall u (List.mem_cons_of_mem hd hu)
    by_cases hk : sameKey hd s = true
    · simp [hk, hall hd (List.mem_cons_self hd tl) hk, ih htl]
    · simp [hk, ih htl]

/-- C5: persisting the same credential twice is idempotent — the second call
falls back to an update writing the identical payload, and the store after
the second call equals the store after the first. -/
theorem upsert_idempotent (env : Env) (store : SecretStore) (kc t : String)
    (hg : env.generated = Except.ok t) (ht : t ≠ "")
    (hrc : env.restConfig = Except.ok ()) (hcs : env.clientset = Except.ok ())
    (hcf : env.createFault = none) (huf : env.updateFault = none) :
    (createKubeadmToken env (createKubeadmToken env store kc).store kc).store =
      (createKubeadmToken env store kc).store := by
  have hsk : sameKey (mintedSecret env.now t) (mintedSecret env.now t) = true :=
    sameKey_self _
  cases hnew : store.any (fun u => sameKey u (mintedSecret env.now t)) with
  | false =>
    have hcr : storeCreate env.createFault store (mintedSecret env.now t) =
        (Except.ok (), store ++ [mintedSecret env.now t]) := by
      simp [storeCreate, hcf, hnew]
    have hst1 : (createKubeadmToken env store kc).store =
        store ++ [mintedSecret env.now t] := by
      simp [createKubeadmToken, hg, ht, hrc, hcs, hcr]
    have hany2 : (store ++ [mintedSecret env.now t]).any
        (fun u => sameKey u (mintedSecret env.now t)) = true := by
      simp [hsk]
    have hcr2 : storeCreate env.createFault (store ++ [mintedSecret env.now t])
        (mintedSecret env.now t) =
        (Except.error APIError.alreadyExists, store ++ [mintedSecret env.now t]) := by
      simp [storeCreate, hcf, hany2]
    have hup2 : storeUpdate env.updateFault (store ++ [mintedSecret env.now t])
        (mintedSecret env.now t) =
        (Except.ok (), (store ++ [mintedSecret env.now t]).map
          (fun u => if sameKey u (mintedSecret env.now t) then mintedSecret env.now t else u)) := by
      simp [storeUpdate, huf, hany2]
    have hall : ∀ u ∈ store ++ [mintedSecret env.now t],
        sameKey u (mintedSecret env.now t) = true → u = mintedSecret env.now t := by
      intro u hu hk
      rcases List.mem_append.mp hu with hu1 | hu2
      · exact absurd hk (by simp [List.any_eq_false.mp hnew u hu1])
      · simpa using hu2
    rw [hst1]
    simp only [createKubeadmToken, hg, ht, hrc, hcs, hcr2, hup2]
    simp [APIError.isAlreadyExists, mapset_id _ _ hall]
  | true =>
    have hcr : storeCreate env.createFault store (mintedSecret env.now t) =
        (Except.error APIError.alreadyExists, store) := by
      simp [storeCreate, hcf, hnew]
    have hup : storeUpdate env.updateFault store (mintedSecret env.now t) =
        (Except.ok (), store.map
          (fun u => if sameKey u (mintedSecret env.now t) then mintedSecret env.now t else u)) := by
      simp [storeUpdate, huf, hnew]
    have hst1 : (createKubeadmToken env store kc).store =
        store.map (fun u => if sameKey u (mintedSecret env.now t) then mintedSecret env.now t else u) := by
      simp [createKubeadmToken, hg, ht, hrc, hcs, hcr, hup, APIError.isAlreadyExists]
    have hall : ∀ u ∈ store.map
        (fun u => if sameKey u (mintedSecret env.now t) then mintedSecret env.now t else u),
        sameKey u (mintedSecret env.now t) = true → u = mintedSecret env.now t := by
      intro u hu hk
      rcases List.mem_map.mp hu with ⟨v, hv, hfv⟩
      by_cases hkv : sameKey v (mintedSecret env.now t) = true
      · rw [← hfv]; simp [hkv]
      · rw [← hfv] at hk ⊢
        simp [hkv] at hk
    have hany2 : (store.map
        (fun u => if sameKey u (mintedSecret env.now t) then mintedSecret env.now t else u)).any
        (fun u => sameKey u (mintedSecret env.now t)) = true := by
      rcases List.any_eq_true.mp hnew with ⟨v, hv, hkv⟩
      refine List.any_eq_true.mpr ⟨mintedSecret env.now t, ?_, hsk⟩
      refine List.mem_map.mpr ⟨v, hv, ?_⟩
      simp [hkv]
    have hcr2 : storeCreate env.createFault
        (store.map (fun u => if sameKey u (mintedSecret env.now t) then mintedSecret env.now t else u))
        (mintedSecret env.now t) =
        (Except.error APIError.alreadyExists,
          store.map (fun u => if sameKey u (mintedSecret env.now t) then mintedSecret env.now t else u)) := by
      simp [storeCreate, hcf, hany2]
    have hup2 : storeUpdate env.updateFault
        (store.map (fun u => if sameKey u (mintedSecret env.now t) then mintedSecret env.now t else u))
        (mintedSecret env.now t) =
        (Except.ok (),
          (store.map (fun u => if sameKey u (mintedSecret env.now t) then mintedSecret env.now t else u)).map
            (fun u => if sameKey u (mintedSecret env.now t) then mintedSecret env.now t else u)) := by
      simp [storeUpdate, huf, hany2]
    rw [hst1]
    simp only [createKubeadmToken, hg, ht, hrc, hcs, hcr2, hup2]
    simp [APIError.isAlreadyExists, mapset_id _ _ hall]

/-- C5 witness: the idempotence theorem at the concrete mint environment and
an empty initial store. -/
theorem upsert_idempotent_witness :
    (createKubeadmToken envMint ((createKubeadmToken envMint [] "kc").store) ("kc")).store =
      (createKubeadmToken envMint [] "kc").store :=
  upsert_idempotent envMint [] "kc" tokMint rfl (by decide) rfl rfl rfl rfl

/-- Any of the claim's miss conditions — a nil annotation map, a missing
token key, an unparsable expiry, or an expiry with at most the minimum
remaining lifetime — makes the cache check come up empty. -/
lemma cachedToken_eq_none (now : Int) (c : Cluster)
    (hmiss : c.anns = none
      ∨ ∃ l, c.anns = some l ∧
        (annLookup l KubeadmToken = none
          ∨ parseRFC3339 (annLookupD l KubeadmTokenExpiryTime) = none
          ∨ ∃ e, parseRFC3339 (annLookupD l KubeadmTokenExpiryTime) = some e ∧
              e - now ≤ KubeadmTokenLeftTime)) :
    cachedToken now c = none := by
  rcases hmiss with hn | ⟨l, hl, hcase⟩
  · simp [cachedToken, hn]
  · rcases hcase with h1 | h2 | ⟨e, he, hle⟩
    · simp [cachedToken, hl, h1]
    · cases ht : annLookup l KubeadmToken with
      | none => simp [cachedToken, hl, ht]
      | some tok => simp [cachedToken, hl, ht, h2]
    · cases ht : annLookup l KubeadmToken with
      | none => simp [cachedToken, hl, ht]
      | some tok =>
        have hnot : ¬ (e - now > KubeadmTokenLeftTime) := not_lt.mpr hle
        simp [cachedToken, hl, ht, he, hnot]

/-- On a successful mint with generated token `t`, the mint returns `t`,
issues exactly one secret create with the minted payload, and calls the
generator exactly once. -/
lemma mint_ok_shape (env : Env) (store : SecretStore) (kc t : String)
    (hg : env.generated = Except.ok t)
    (hok : (createKubeadmToken env store kc).err = none) :
    (createKubeadmToken env store kc).token = t ∧
    (createKubeadmToken env store kc).trace.secretCreates = [mintedSecret env.now t] ∧
    (createKubeadmToken env store kc).trace.generateCalls = 1 := by
  by_cases ht : t = ""
  · subst ht; simp [createKubeadmToken, hg] at hok
  · cases hrc : env.restConfig with
    | error e => simp [createKubeadmToken, hg, ht, hrc] at hok
    | ok u =>
      cases hcs : env.clientset with
      | error e => simp [createKubeadmToken, hg, ht, hrc, hcs] at hok
      | ok v =>
        rcases hsc : storeCreate env.createFault store (mintedSecret env.now t) with ⟨r1, st1⟩
        cases r1 with
        | ok w => simp [createKubeadmToken, hg, ht, hrc, hcs, hsc]
        | error ce =>
          by_cases hae : ce.isAlreadyExists
          · rcases hsu : storeUpdate env.updateFault st1 (mintedSecret env.now t) with ⟨r2, st2⟩
            cases r2 with
            | ok w => simp [createKubeadmToken, hg, ht, hrc, hcs, hsc, hae, hsu]
            | error ue => simp [createKubeadmToken, hg, ht, hrc, hcs, hsc, hae, hsu] at hok
          · simp [createKubeadmToken, hg, ht, hrc, hcs, hsc, hae] at hok

/-- After `ensureAnns` the annotation map is non-nil. -/
lemma ensureAnns_anns_ne_none (c : Cluster) : c.ensureAnns.anns ≠ none := by
  by_cases h : c.anns = none
  · simp [Cluster.ensureAnns, h]
  · simp [Cluster.ensureAnns, h]

/-- On the miss path with a resolvable control plane, a kube-config and a
successful mint, `GetKubeadmToken` evaluates to: the minted token, the cache
write's own outcome as the error, the mint's store, the heap with the
annotated copy written at the fresh cell, and a trace with one lister call,
one kube-config get and the annotated copy as the single cluster update. -/
lemma getKubeadmToken_miss_eq (env : Env) (store : SecretStore)
    (h : List Cluster) (p : Nat) (cps : List String) (kc : String)
    (hct : cachedToken env.now (heapGet h p) = none)
    (hcp : env.controlPlane = Except.ok cps) (hne : cps.length ≠ 0)
    (hkc : env.kubeConfig = Except.ok kc) :
    GetKubeadmToken env store h p =
      { token := (createKubeadmToken env store kc).token
        err := env.clusterUpdate
        store := (createKubeadmToken env store kc).store
        heap :=
          heapSet
            (heapSet
              (heapSet (h ++ [(heapGet h p).deepCopy]) h.length
                (heapGet h p).deepCopy.ensureAnns)
              h.length
              ((heapGet h p).deepCopy.ensureAnns.setAnn KubeadmToken
                (createKubeadmToken env store kc).token))
            h.length
            (((heapGet h p).deepCopy.ensureAnns.setAnn KubeadmToken
                (createKubeadmToken env store kc).token).setAnn KubeadmTokenExpiryTime
              (formatRFC3339 (env.now + KubeadmTokenTtl)))
        trace :=
          { (createKubeadmToken env store kc).trace with
            listerCalls := 1
            kubeConfigGets := 1
            clusterUpdates :=
              [((heapGet h p).deepCopy.ensureAnns.setAnn KubeadmToken
                  (createKubeadmToken env store kc).token).setAnn KubeadmTokenExpiryTime
                (formatRFC3339 (env.now + KubeadmTokenTtl))] } } ∨
    ((createKubeadmToken env store kc).err ≠ none ∧
      GetKubeadmToken env store h p =
        { token := ""
          err := (createKubeadmToken env store kc).err
          store := (createKubeadmToken env store kc).store
          heap := h
          trace :=
            { (createKubeadmToken env store kc).trace with
              listerCalls := 1
              kubeConfigGets := 1 } }) := by
  have hlen1 : h.length < (h ++ [(heapGet h p).deepCopy]).length := by
    simp
  have e1 : heapGet (h ++ [(heapGet h p).deepCopy]) h.length =
      (heapGet h p).deepCopy := heapGet_append_len _ _
  have e2 : heapGet
      (heapSet (h ++ [(heapGet h p).deepCopy]) h.length (heapGet h p).deepCopy.ensureAnns)
      h.length = (heapGet h p).deepCopy.ensureAnns :=
    heapGet_set_self _ _ _ hlen1
  have hlen2 : h.length <
      (heapSet (h ++ [(heapGet h p).deepCopy]) h.length
        (heapGet h p).deepCopy.ensureAnns).length := by
    rw [length_heapSet]; exact hlen1
  have e3 : heapGet
      (heapSet
        (heapSet (h ++ [(heapGet h p).deepCopy]) h.length (heapGet h p).deepCopy.ensureAnns)
        h.length
        ((heapGet h p).deepCopy.ensureAnns.setAnn KubeadmToken
          (createKubeadmToken env store kc).token))
      h.length =
      (heapGet h p).deepCopy.ensureAnns.setAnn KubeadmToken
        (createKubeadmToken env store kc).token :=
    heapGet_set_self _ _ _ hlen2
  have hlen3 : h.length <
      (heapSet
        (heapSet (h ++ [(heapGet h p).deepCopy]) h.length (heapGet h p).deepCopy.ensureAnns)
        h.length
        ((heapGet h p).deepCopy.ensureAnns.setAnn KubeadmToken
          (createKubeadmToken env store kc).token)).length := by
    rw [length_heapSet, length_heapSet]; exact hlen1
  have e4 : heapGet
      (heapSet
        (heapSet
          (heapSet (h ++ [(heapGet h p).deepCopy]) h.length (heapGet h p).deepCopy.ensureAnns)
          h.length
          ((heapGet h p).deepCopy.ensureAnns.setAnn KubeadmToken
            (createKubeadmToken env store kc).token))
        h.length
        (((heapGet h p).deepCopy.ensureAnns.setAnn KubeadmToken
            (createKubeadmToken env store kc).token).setAnn KubeadmTokenExpiryTime
          (formatRFC3339 (env.now + KubeadmTokenTtl))))
      h.length =
      ((heapGet h p).deepCopy.ensureAnns.setAnn KubeadmToken
        (createKubeadmToken env store kc).token).setAnn KubeadmTokenExpiryTime
        (formatRFC3339 (env.now + KubeadmTokenTtl)) :=
    heapGet_set_self _ _ _ hlen3
  cases hme : (createKubeadmToken env store kc).err with
  | some e =>
    right
    refine ⟨by simp [hme], ?_⟩
    simp [GetKubeadmToken, hct, hcp, hne, hkc, hme]
  | none =>
    left
    simp only [GetKubeadmToken, hct, hcp, hkc, hme, heapAlloc, if_neg hne]
    rw [e1, e2, e3, e4]

/-- C3: on every cache miss — nil annotations, missing token key, unparsable
expiry, or expiry within the minimum remaining lifetime — with control-plane
resolution and kube-config retrieval succeeding and the mint succeeding,
`GetKubeadmToken` calls the generator exactly once and attempts exactly one
cache write, whose payload carries the new token and a fresh `now + TTL`
expiry; the returned error is exactly the cache write's outcome, so the
unparsable expiry is never itself surfaced as an error. -/
theorem cache_miss_mints_once (env : Env) (store : SecretStore)
    (h : List Cluster) (p : Nat) (cps : List String) (kc t : String)
    (hmiss : (heapGet h p).anns = none
      ∨ ∃ l, (heapGet h p).anns = some l ∧
        (annLookup l KubeadmToken = none
          ∨ parseRFC3339 (annLookupD l KubeadmTokenExpiryTime) = none
          ∨ ∃ e, parseRFC3339 (annLookupD l KubeadmTokenExpiryTime) = some e ∧
              e - env.now ≤ KubeadmTokenLeftTime))
    (hcp : env.controlPlane = Except.ok cps) (hne : cps.length ≠ 0)
    (hkc : env.kubeConfig = Except.ok kc)
    (hg : env.generated = Except.ok t)
    (hok : (createKubeadmToken env store kc).err = none) :
    (GetKubeadmToken env store h p).trace.generateCalls = 1 ∧
    (GetKubeadmToken env store h p).trace.listerCalls = 1 ∧
    (GetKubeadmToken env store h p).trace.kubeConfigGets = 1 ∧
    (∃ nc nl, (GetKubeadmToken env store h p).trace.clusterUpdates = [nc] ∧
      nc.anns = some nl ∧
      annLookup nl KubeadmToken = some t ∧
      annLookup nl KubeadmTokenExpiryTime =
        some (formatRFC3339 (env.now + KubeadmTokenTtl))) ∧
    (GetKubeadmToken env store h p).token = t ∧
    (GetKubeadmToken env store h p).err = env.clusterUpdate := by
  have hct : cachedToken env.now (heapGet h p) = none :=
    cachedToken_eq_none env.now _ hmiss
  rcases getKubeadmToken_miss_eq env store h p cps kc hct hcp hne hkc with heq | ⟨hne2, _⟩
  · rcases mint_ok_shape env store kc t hg hok with ⟨htok, _, hgen⟩
    rw [heq]
    refine ⟨by simp [hgen], by simp, by simp, ?_, by simp [htok], by simp⟩
    refine ⟨_, _, rfl, rfl, ?_, ?_⟩
    · rw [Cluster.setAnn]
      simp only
      rw [annLookup_annSet_ne _ _ _ _ (by decide), htok]
      rcases hcan : ((heapGet h p).deepCopy.ensureAnns).anns with _ | l0
      · exact absurd hcan (ensureAnns_anns_ne_none _)
      · simp [Cluster.setAnn, hcan, annLookup_annSet_self]
    · simp [Cluster.setAnn, annLookup_annSet_self]
  · exact absurd hok hne2

/-- C3 witness: at the concrete mint environment and a cluster with no
annotations, the miss path generates once and writes the annotated copy
once. -/
theorem cache_miss_mints_once_witness :
    (GetKubeadmToken envMint [] [cNoAnn] 0).trace.generateCalls = 1 ∧
    (GetKubeadmToken envMint [] [cNoAnn] 0).trace.listerCalls = 1 ∧
    (GetKubeadmToken envMint [] [cNoAnn] 0).trace.kubeConfigGets = 1 ∧
    (∃ nc nl, (GetKubeadmToken envMint [] [cNoAnn] 0).trace.clusterUpdates = [nc] ∧
      nc.anns = some nl ∧
      annLookup nl KubeadmToken = some tokMint ∧
      annLookup nl KubeadmTokenExpiryTime =
        some (formatRFC3339 (0 + KubeadmTokenTtl))) ∧
    (GetKubeadmToken envMint [] [cNoAnn] 0).token = tokMint ∧
    (GetKubeadmToken envMint [] [cNoAnn] 0).err = envMint.clusterUpdate :=
  cache_miss_mints_once envMint [] [cNoAnn] 0 ["cp0"] "kc" tokMint
    (Or.inl rfl) rfl (by decide) rfl rfl (by rfl)

/-- C10: on a successful cache-miss mint the string returned and written
into the cluster's token annotation is the full generated token `t`: the
persisted credential record's identifier field is its first
`BootstrapTokenIDBytes` characters and the record's private secret field is
its characters after the one-character separator, so the private half is
cached on the cluster object and not only in the secret store. -/
theorem full_token_cached_on_cluster (env : Env) (store : SecretStore)
    (h : List Cluster) (p : Nat) (cps : List String) (kc t : String)
    (hct : cachedToken env.now (heapGet h p) = none)
    (hcp : env.controlPlane = Except.ok cps) (hne : cps.length ≠ 0)
    (hkc : env.kubeConfig = Except.ok kc)
    (hg : env.generated = Except.ok t)
    (hlen : 7 ≤ t.length)
    (hok : (createKubeadmToken env store kc).err = none) :
    (GetKubeadmToken env store h p).token = t ∧
    (∃ nc nl, (GetKubeadmToken env store h p).trace.clusterUpdates = [nc] ∧
      nc.anns = some nl ∧ annLookup nl KubeadmToken = some t) ∧
    (createKubeadmToken env store kc).trace.secretCreates = [mintedSecret env.now t] ∧
    annLookup (mintedSecret env.now t).data BootstrapTokenIDKey =
      some ((t.toList.take BootstrapTokenIDBytes).asString) ∧
    annLookup (mintedSecret env.now t).data BootstrapTokenSecretKey =
      some ((t.toList.drop (BootstrapTokenIDBytes + 1)).asString) ∧
    ∃ sep : Char, t.toList =
      t.toList.take BootstrapTokenIDBytes ++ sep :: t.toList.drop (BootstrapTokenIDBytes + 1) := by
  rcases mint_ok_shape env store kc t hg hok with ⟨htok, hcre, _⟩
  rcases getKubeadmToken_miss_eq env store h p cps kc hct hcp hne hkc with heq | ⟨hne2, _⟩
  · have h6 : 6 < t.toList.length := by
      have hl : t.toList.length = t.length := rfl
      omega
    refine ⟨by rw [heq]; simpa using htok, ?_, hcre, ?_, ?_, ?_⟩
    · rw [heq]
      refine ⟨_, _, rfl, rfl, ?_⟩
      rw [Cluster.setAnn]
      simp only
      rw [annLookup_annSet_ne _ _ _ _ (by decide), htok]
      rcases hcan : ((heapGet h p).deepCopy.ensureAnns).anns with _ | l0
      · exact absurd hcan (ensureAnns_anns_ne_none _)
      · simp [Cluster.setAnn, hcan, annLookup_annSet_self]
    · simp [mintedSecret, annLookup]
    · simp [mintedSecret, annLookup, BootstrapTokenIDKey, BootstrapTokenSecretKey]
    · refine ⟨t.toList.get ⟨6, h6⟩, ?_⟩
      have hdrop : t.toList.drop 6 = t.toList.get ⟨6, h6⟩ :: t.toList.drop 7 := by
        rw [List.drop_eq_getElem_cons h6]
        simp [List.get_eq_getElem]
      simp only [BootstrapTokenIDBytes]
      conv_lhs => rw [← List.take_append_drop 6 t.toList]
      rw [hdrop]
  · exact absurd hok hne2

/-- C10 witness: at the concrete mint environment, the annotation payload
carries the full 23-character token whose halves are the stored identifier
and secret. -/
theorem full_token_cached_on_cluster_witness :
    (GetKubeadmToken envMint [] [cNoAnn] 0).token = tokMint ∧
    (∃ nc nl, (GetKubeadmToken envMint [] [cNoAnn] 0).trace.clusterUpdates = [nc] ∧
      nc.anns = some nl ∧ annLookup nl KubeadmToken = some tokMint) ∧
    (createKubeadmToken envMint [] "kc").trace.secretCreates = [mintedSecret envMint.now tokMint] ∧
    annLookup (mintedSecret envMint.now tokMint).data BootstrapTokenIDKey =
      some ((tokMint.toList.take BootstrapTokenIDBytes).asString) ∧
    annLookup (mintedSecret envMint.now tokMint).data BootstrapTokenSecretKey =
      some ((tokMint.toList.drop (BootstrapTokenIDBytes + 1)).asString) ∧
    ∃ sep : Char, tokMint.toList =
      tokMint.toList.take BootstrapTokenIDBytes ++
        sep :: tokMint.toList.drop (BootstrapTokenIDBytes + 1) :=
  full_token_cached_on_cluster envMint [] [cNoAnn] 0 ["cp0"] "kc" tokMint
    (by simp [cachedToken, cNoAnn, heapGet]) rfl (by decide) rfl rfl (by decide) (by rfl)

/-- An environment in which the mint succeeds but the cluster cache write
fails. -/
def envCacheFail : Env := { envMint with clusterUpdate := some ("cluster update failed") }

/-- C1: `return token, err` at the end of `GetKubeadmToken` surfaces the
cache-write failure: at a concrete cluster needing a mint, with every step
up to and including token persistence succeeding and only the cluster
annotation update failing, the function returns the freshly minted token
together with that non-nil error — the cache-write failure is not swallowed
as the specification requires. -/
theorem getKubeadmToken_cacheWrite_failure_propagates :
    (GetKubeadmToken envCacheFail [] [cNoAnn] 0).token = tokMint ∧
    (GetKubeadmToken envCacheFail [] [cNoAnn] 0).err = some ("cluster update failed") ∧
    (GetKubeadmToken envMint [] [cNoAnn] 0).err = none := by
  refine ⟨by rfl, by rfl, by rfl⟩

end Govmomi
